import Mathlib

/-!
Verification of the wheel-screener service (src/app.py and src/app_tradier.py)
against its natural-language specification.

Shallow-embedding conventions:
* Python floats are modelled as exact rationals (ℚ); `round(x, 2)` is modelled
  by round-half-to-even at two decimal places on exact rationals.
* Python `None` results and caught exceptions are modelled with `Option`.
* Provider HTTP responses are passed in as explicit parameters; a `none`
  response models a transport error, a non-2xx status or a malformed payload
  (all of which the source catches and converts to `None` / `[]`).
* Python `str.upper` / `str.lower` / `str.strip` are modelled character-wise
  over the string's character list (the tickers and modes in play are ASCII).
* Calendar datetimes are modelled as rational timestamps measured in days, so
  `timedelta(days = n)` is addition of `n`; `strptime` of the provider's ISO
  dates is order-preserving and is modelled by giving expirations directly as
  timestamps.
-/

/-- Model of Python `str.upper` (character-wise, ASCII-adequate). -/
def pyUpper (s : String) : String := String.mk (s.data.map Char.toUpper)

/-- Model of Python `str.lower` (character-wise, ASCII-adequate). -/
def pyLower (s : String) : String := String.mk (s.data.map Char.toLower)

/-- Model of Python `str.strip`: drop whitespace from both ends. -/
def pyStrip (s : String) : String :=
  String.mk (((s.data.dropWhile Char.isWhitespace).reverse.dropWhile Char.isWhitespace).reverse)

/-- Round a rational to the nearest integer, ties to even, as Python `round`
does on exact halves. -/
def roundHalfEven (q : ℚ) : ℤ :=
  if q - (⌊q⌋ : ℚ) < 1/2 then ⌊q⌋
  else if 1/2 < q - (⌊q⌋ : ℚ) then ⌊q⌋ + 1
  else if ⌊q⌋ % 2 = 0 then ⌊q⌋ else ⌊q⌋ + 1

/-- Model of Python `round(x, 2)` on exact rationals. -/
def pyRound2 (q : ℚ) : ℚ := (roundHalfEven (q * 100) : ℚ) / 100

/-- A JSON scalar as it can appear in a provider quote field: a number or
`null`.  Coercing `null` with `float(...)` raises in Python. -/
inductive PyVal where
  | num (q : ℚ)
  | null
deriving DecidableEq

/-- Model of Python `float(...)` on a quote field value: `none` models the
`TypeError` raised on `float(None)`. -/
def pyFloat : PyVal → Option ℚ
  | PyVal.num q => some q
  | PyVal.null => none

/-- The provider's raw quote object (the value of `data["quotes"]["quote"]`).
Each field is `none` when the key is absent. -/
structure QuoteRaw where
  last : Option PyVal
  volume : Option PyVal
  description : Option String
  symbol : Option String

/-- The dictionary returned by a successful `get_stock_quote`. -/
structure Quote where
  price : ℚ
  volume : ℚ
  description : String
  symbol : String
deriving DecidableEq

/-- Model of `get_stock_quote` (src/app.py lines 31-59, src/app_tradier.py
lines 24-53) as a function of the provider response.  `resp = none` models a
transport error or a response without the `quotes`/`quote` structure; both
make the source return `None`.  On a well-formed quote object the source
builds the result dict with `float(quote.get("last", 0))` and
`float(quote.get("volume", 0))`; if either key is present but holds JSON
`null`, `float(None)` raises and the `except` clause returns `None`. -/
def get_stock_quote (ticker_symbol : String) (resp : Option QuoteRaw) : Option Quote :=
  match resp with
  | none => none
  | some quote =>
    match pyFloat ((quote.last).getD (PyVal.num 0)), pyFloat ((quote.volume).getD (PyVal.num 0)) with
    | some p, some v =>
        some ⟨p, v, quote.description.getD "", quote.symbol.getD ticker_symbol⟩
    | _, _ => none

/-- The Greeks sub-dictionary of an option contract; `mid_iv` is `none` when
the key is absent. -/
structure Greeks where
  mid_iv : Option ℚ
deriving DecidableEq

/-- An option contract from the provider chain.  Fields are `none` when the
corresponding dictionary key is absent (`opt.get(...)` defaults apply). -/
structure OptionContract where
  option_type : Option String
  strike : Option ℚ
  greeks : Option Greeks
deriving DecidableEq

/-- Membership test of an expiration in the mode's day-offset window,
`target_date <= exp_date <= end_date` (src/app.py lines 110-120): weekly is
[now+7, now+14], anything else (monthly default) is [now+30, now+45], both
endpoints inclusive. -/
def inWindow (now : ℚ) (mode : String) (e : ℚ) : Bool :=
  decide (now + (if mode = "weekly" then 7 else 30) ≤ e
          ∧ e ≤ now + (if mode = "weekly" then 14 else 45))

/-- Model of the expiration-window selection of `get_near_money_put_iv`
(src/app.py lines 105-127): on an empty expiration list the enclosing
function has already returned `None`; otherwise the list is filtered to the
mode's window, and the head of the filtered list (or, when the filter is
empty, the head of the raw list) is the selected expiration. -/
def selectExpiration (now : ℚ) (mode : String) : List ℚ → Option ℚ
  | [] => none
  | e0 :: rest =>
    match (e0 :: rest).filter (inWindow now mode) with
    | [] => some e0
    | s0 :: _ => some s0

/-- Model of the expiration-window selection of src/app_tradier.py
lines 93-112: the fixed 7-14 day window, same fallback. -/
def tradierSelectExpiration (now : ℚ) : List ℚ → Option ℚ
  | [] => none
  | e0 :: rest =>
    match (e0 :: rest).filter (fun e => decide (now + 7 ≤ e ∧ e ≤ now + 14)) with
    | [] => some e0
    | s0 :: _ => some s0

/-- The banded distance of src/app.py lines 165-179: strikes inside
[0.60 * price, 0.80 * price] get plain distance to the 0.70 * price midpoint,
strikes outside get the same distance plus the penalty constant 1000. -/
def bandDistance (current_price strike : ℚ) : ℚ :=
  if current_price * (6/10) ≤ strike ∧ strike ≤ current_price * (8/10) then
    |strike - current_price * (7/10)|
  else
    |strike - current_price * (7/10)| + 1000

/-- The put list tagged with the banded distance, as the loop of src/app.py
lines 172-179 does (`put.get("strike", 0)` defaults an absent strike to 0). -/
def withDistances (current_price : ℚ) (puts : List OptionContract) :
    List (OptionContract × ℚ) :=
  puts.map (fun p => (p, bandDistance current_price (p.strike.getD 0)))

/-- Comparison by the tagged distance, the sort key of
`sorted(puts, key=lambda x: x["distance"])`. -/
def distLe (a b : OptionContract × ℚ) : Prop := a.2 ≤ b.2

instance : DecidableRel distLe := fun a b => inferInstanceAs (Decidable (a.2 ≤ b.2))

instance : IsTotal (OptionContract × ℚ) distLe := ⟨fun a b => le_total a.2 b.2⟩

instance : IsTrans (OptionContract × ℚ) distLe := ⟨fun _ _ _ hab hbc => le_trans hab hbc⟩

/-- Model of src/app.py lines 182-183: stable sort ascending by distance
(Python `sorted` is stable; stable insertion sort computes the same list) and
take the first 3. -/
def nearestPuts (current_price : ℚ) (puts : List OptionContract) :
    List (OptionContract × ℚ) :=
  (List.insertionSort distLe (withDistances current_price puts)).take 3

/-- The unbanded distance of src/app_tradier.py line 147. -/
def tradierWithDistances (current_price : ℚ) (puts : List OptionContract) :
    List (OptionContract × ℚ) :=
  puts.map (fun p => (p, |p.strike.getD 0 - current_price * (7/10)|))

/-- Model of src/app_tradier.py lines 150-151. -/
def tradierNearestPuts (current_price : ℚ) (puts : List OptionContract) :
    List (OptionContract × ℚ) :=
  (List.insertionSort distLe (tradierWithDistances current_price puts)).take 3

/-- Model of one iteration of the IV-aggregation loop of src/app.py lines
190-204 on the first selected put.  In the source, `iv_values` starts empty
and `avg_iv` starts unbound; the loop body guards on a truthy `greeks` dict
carrying `mid_iv`, appends in-band values to `iv_values`, and (in the
mis-indented `else` branch) assigns `avg_iv` only when `iv_values` is already
non-empty; the mis-indented `return round(avg_iv * 100, 2)` then executes at
the end of the first iteration.  `avg_iv` is modelled as `Option ℚ` with
`none` for "unbound": returning while unbound raises `NameError`, which the
enclosing `except` turns into `None`. -/
def appIvLoopFirst (p : OptionContract × ℚ) : Option ℚ :=
  let iv_values : List ℚ := []
  let avg_iv : Option ℚ := none
  let st : List ℚ × Option ℚ :=
    match p.1.greeks.bind Greeks.mid_iv with
    | some mid_iv =>
      if 1/20 ≤ mid_iv ∧ mid_iv ≤ 2 then (iv_values ++ [mid_iv], avg_iv)
      else if iv_values = [] then (iv_values, avg_iv)
      else (iv_values, some (iv_values.sum / (iv_values.length : ℚ)))
    | none => (iv_values, avg_iv)
  match st.2 with
  | some a => some (pyRound2 (a * 100))
  | none => none

/-- Model of `get_near_money_put_iv` of src/app.py from the retrieved chain
onward (lines 147-206), as a function of the normalized contract list.
Lines 157-161 read `if len(puts) > 0: ... return None`, so any chain with at
least one put returns `None` immediately, and a chain with no puts falls
through to strike selection over the empty list; the aggregation loop then
never runs and the function prints and returns `None` (line 206). -/
def appChainStep (options : List OptionContract) (current_price : ℚ) : Option ℚ :=
  let puts := options.filter (fun o => decide (o.option_type = some "put"))
  if 0 < puts.length then
    none
  else
    match nearestPuts current_price puts with
    | [] => none
    | p :: _ => appIvLoopFirst p

/-- Model of `get_near_money_put_iv` of src/app_tradier.py from the retrieved
chain onward (lines 129-165): filter to puts, fail on an empty put list, rank
by plain distance to 0.70 * price, take the 3 nearest, collect every `mid_iv`
carried by a truthy `greeks` dict (no sanity band), and return
`round(mean * 100, 2)`, or `None` when no value was collected. -/
def tradierChainStep (options : List OptionContract) (current_price : ℚ) : Option ℚ :=
  let puts := options.filter (fun o => decide (o.option_type = some "put"))
  if puts = [] then
    none
  else
    let iv_values :=
      (tradierNearestPuts current_price puts).filterMap (fun p => p.1.greeks.bind Greeks.mid_iv)
    if iv_values = [] then none
    else some (pyRound2 (iv_values.sum / (iv_values.length : ℚ) * 100))

/-- Model of the full `get_near_money_put_iv` of src/app.py (lines 89-209):
expirations and the per-expiration chain response are passed in as explicit
provider data.  An empty expiration list, a missing chain structure
(`chain = none`), or any caught exception returns `None`. -/
def get_near_money_put_iv (now : ℚ) (expirations : List ℚ)
    (chain : ℚ → Option (List OptionContract)) (current_price : ℚ)
    (mode : String) : Option ℚ :=
  match selectExpiration now mode expirations with
  | none => none
  | some exp =>
    match chain exp with
    | none => none
    | some options => appChainStep options current_price

/-- The value stored under `implied_volatility` in a success record: either
the numeric percentage or the string sentinel "N/A". -/
inductive IVField where
  | val (q : ℚ)
  | na
deriving DecidableEq

/-- A per-ticker result dictionary.  Every key except `ticker` is optional,
mirroring the two dict shapes built by `get_ticker_data`. -/
structure ScreeningResult where
  ticker : String
  price : Option ℚ
  implied_volatility : Option IVField
  description : Option String
  volume : Option ℚ
  error : Option String
deriving DecidableEq

/-- The provider back-end as seen by the orchestration layer: the outcome of
`get_stock_quote` per ticker, and the outcome of `get_near_money_put_iv` per
ticker, current price and mode. -/
structure Provider where
  quote : String → Option Quote
  putIv : String → ℚ → String → Option ℚ

/-- Model of `get_ticker_data` (src/app.py lines 212-257, src/app_tradier.py
lines 172-213).  The second component counts the invocations of
`get_near_money_put_iv` (the Selector), which is called exactly once and only
after a successful quote.  On a failed quote the error record is returned
before the Selector can run; otherwise price and volume are rounded
(`round(current_price, 2)`, `round(volume_raw / 1e6, 2)`) and a `None` IV
becomes the "N/A" sentinel. -/
def get_ticker_data (prov : Provider) (ticker_symbol : String) (mode : String) :
    ScreeningResult × Nat :=
  match prov.quote ticker_symbol with
  | none =>
    ({ ticker := pyUpper ticker_symbol, price := none, implied_volatility := none,
       description := none, volume := none,
       error := some "Unable to fetch quote data" }, 0)
  | some quote =>
    let iv := prov.putIv ticker_symbol quote.price mode
    ({ ticker := pyUpper ticker_symbol,
       price := some (pyRound2 quote.price),
       implied_volatility := some (match iv with
         | some v => IVField.val v
         | none => IVField.na),
       description := some quote.description,
       volume := some (pyRound2 (quote.volume / 1000000)),
       error := none }, 1)

/-- A JSON value as it can appear in a request body's `tickers` list or
`mode` field. -/
inductive JVal where
  | jstr (s : String)
  | jlist (l : List JVal)
  | jnum (q : ℚ)
  | jnull

/-- A parsed POST JSON body (a JSON object).  A field is `none` when the key
is absent.  Bodies that are not JSON objects are outside the model. -/
structure PostBody where
  tickers : Option JVal
  mode : Option JVal

/-- The HTTP method of a request to /api/wheel-screener. -/
inductive Method where
  | get
  | post
deriving DecidableEq

/-- A request to /api/wheel-screener: the `mode` and `tickers` query
parameters (`none` when absent) and, for POST, the parsed JSON body (`none`
models a missing or falsy `request.get_json()` result). -/
structure HttpRequest where
  method : Method
  argMode : Option String
  argTickers : Option String
  body : Option PostBody

/-- The response of the /api/wheel-screener handler.  `badRequest` is an
HTTP 400 with the given error string, `ok` is the HTTP 200 success payload
(its `count` field and `data` list), and `serverError` is the HTTP 500
produced by the catch-all handler (its message, built from the exception
text, is not modelled). -/
inductive WheelResponse where
  | badRequest (error : String)
  | ok (mode : String) (count : Nat) (data : List ScreeningResult)
  | serverError
deriving DecidableEq

/-- Model of the per-ticker loop of `wheel_screener` (src/app.py lines
320-324, src/app_tradier.py lines 255-259): entries that are strings are
stripped and processed in order, anything else is skipped. -/
def processTickers (prov : Provider) (mode : String) (tickers : List JVal) :
    List ScreeningResult :=
  tickers.foldl
    (fun results t =>
      match t with
      | JVal.jstr s => results ++ [(get_ticker_data prov (pyStrip s) mode).1]
      | _ => results)
    []

/-- Model of the tail of `wheel_screener` shared by GET and POST (src/app.py
lines 314-338): reject an empty ticker list with 400, otherwise process the
list and answer 200 with `count = len(results)`.  The second component counts
invocations of `get_ticker_data` (each of which opens with a provider quote
call); it is 0 on every rejected request. -/
def finishRequest (prov : Provider) (mode : String) (tickers : List JVal) :
    WheelResponse × Nat :=
  if tickers.length = 0 then
    (WheelResponse.badRequest "Tickers list cannot be empty", 0)
  else
    (WheelResponse.ok mode (processTickers prov mode tickers).length
       (processTickers prov mode tickers),
     (processTickers prov mode tickers).length)

/-- Model of the `isinstance(tickers, list)` check of src/app.py lines
312-313, run after the body-mode override. -/
def listCheck (prov : Provider) (mode : String) (tv : JVal) : WheelResponse × Nat :=
  match tv with
  | JVal.jlist l => finishRequest prov mode l
  | _ => (WheelResponse.badRequest "\"tickers\" must be a list", 0)

/-- Model of the `wheel_screener` request handler (src/app.py lines 260-341).
The query `mode` parameter is lower-cased with default "monthly" and
validated first.  GET derives the ticker list from the comma-separated
`tickers` query parameter (stripping each part) or falls back to the default
five symbols.  POST requires a body with a `tickers` key; a body `mode`
overrides the query mode when present — `data["mode"].lower()` on a
non-string raises `AttributeError`, which the catch-all turns into an
HTTP 500 — and the list-shape and emptiness checks follow. -/
def wheel_screener (prov : Provider) (req : HttpRequest) : WheelResponse × Nat :=
  let mode := pyLower (req.argMode.getD "monthly")
  if ¬ (mode = "weekly" ∨ mode = "monthly") then
    (WheelResponse.badRequest "Invalid mode. Must be \"weekly\" or \"monthly\"", 0)
  else
    match req.method with
    | Method.get =>
      let tickers_param := req.argTickers.getD ""
      let tickers : List JVal :=
        if tickers_param ≠ "" then
          (tickers_param.splitOn ",").map (fun t => JVal.jstr (pyStrip t))
        else
          [JVal.jstr "SOFI", JVal.jstr "F", JVal.jstr "BAC", JVal.jstr "PFE", JVal.jstr "KO"]
      finishRequest prov mode tickers
    | Method.post =>
      match req.body with
      | none =>
        (WheelResponse.badRequest "Request must include \"tickers\" list in JSON body", 0)
      | some data =>
        match data.tickers with
        | none =>
          (WheelResponse.badRequest "Request must include \"tickers\" list in JSON body", 0)
        | some tv =>
          match data.mode with
          | none => listCheck prov mode tv
          | some (JVal.jstr s) =>
            if ¬ (pyLower s = "weekly" ∨ pyLower s = "monthly") then
              (WheelResponse.badRequest "Invalid mode. Must be \"weekly\" or \"monthly\"", 0)
            else
              listCheck prov (pyLower s) tv
          | some _ => (WheelResponse.serverError, 0)

/-- A concrete provider on which every quote fetch fails and the Selector
always reports no IV; used to instantiate theorems at closed inputs. -/
def provW : Provider :=
  { quote := fun _ => none, putIv := fun _ _ _ => none }

/-- Extract the string carried by a request-list entry, skipping everything
else; the specification-side description of the batch loop's
`isinstance(ticker, str)` guard. -/
def isStrEntry : JVal → Option String
  | JVal.jstr s => some s
  | _ => none

/-- A POST request whose body is structurally invalid through its `mode`
value alone: a valid non-empty `tickers` list together with the JSON number
3 under `mode`. -/
def badModeReq : HttpRequest :=
  ⟨Method.post, none, none, some ⟨some (JVal.jlist [JVal.jstr "A"]), some (JVal.jnum 3)⟩⟩

theorem head?_filter {α : Type} (p : α → Bool) (l : List α) :
    (l.filter p).head? = l.find? p := by
  induction l with
  | nil => rfl
  | cons a t ih => by_cases h : p a <;> simp [List.filter_cons, List.find?_cons, h, ih]

theorem processTickers_foldl (prov : Provider) (mode : String) (tickers : List JVal)
    (acc : List ScreeningResult) :
    tickers.foldl
      (fun results t =>
        match t with
        | JVal.jstr s => results ++ [(get_ticker_data prov (pyStrip s) mode).1]
        | _ => results)
      acc =
    acc ++ (tickers.filterMap isStrEntry).map
      (fun s => (get_ticker_data prov (pyStrip s) mode).1) := by
  induction tickers generalizing acc with
  | nil => simp
  | cons a t ih => cases a <;> simp [List.filterMap_cons, isStrEntry, ih]

/-- Claim C10: a quote whose `last` or `volume` key is present but holds JSON
`null` makes `get_stock_quote` return the no-data result, because `float(None)`
raises and the handler catches it; the default-0 coercion applies only when
the key is entirely absent. -/
theorem quote_null_field_yields_no_data (ticker : String) (q : QuoteRaw) :
    (q.last = some PyVal.null → get_stock_quote ticker (some q) = none)
  ∧ (q.volume = some PyVal.null → get_stock_quote ticker (some q) = none)
  ∧ (q.last = none → q.volume = none →
      get_stock_quote ticker (some q) =
        some ⟨0, 0, q.description.getD "", q.symbol.getD ticker⟩)
  ∧ (∀ v : ℚ, q.last = none → q.volume = some (PyVal.num v) →
      get_stock_quote ticker (some q) =
        some ⟨0, v, q.description.getD "", q.symbol.getD ticker⟩) := by
  refine ⟨fun h => ?_, fun h => ?_, fun h h2 => ?_, fun v h h2 => ?_⟩ <;>
    simp [get_stock_quote, h, pyFloat] <;> simp [h2, pyFloat]

/-- Witness for C10 at a concrete quote: `last` present but null, numeric
volume. -/
theorem quote_null_field_yields_no_data_witness :
    get_stock_quote "F" (some ⟨some PyVal.null, some (PyVal.num 3), none, none⟩) = none :=
  (quote_null_field_yields_no_data "F" ⟨some PyVal.null, some (PyVal.num 3), none, none⟩).1 rfl

/-- Claim C5: when the quote fetch fails, `get_ticker_data` returns exactly
the upper-cased ticker with the fixed error string, and the Selector is not
invoked (invocation count 0, result independent of `prov.putIv`). -/
theorem quote_failure_short_circuits (prov : Provider) (ticker_symbol mode : String)
    (h : prov.quote ticker_symbol = none) :
    get_ticker_data prov ticker_symbol mode =
      ({ ticker := pyUpper ticker_symbol, price := none, implied_volatility := none,
         description := none, volume := none,
         error := some "Unable to fetch quote data" }, 0) := by
  simp [get_ticker_data, h]

/-- Witness for C5 on the failing provider. -/
theorem quote_failure_short_circuits_witness :
    get_ticker_data provW "sofi" "monthly" =
      ({ ticker := "SOFI", price := none, implied_volatility := none,
         description := none, volume := none,
         error := some "Unable to fetch quote data" }, 0) := by
  have h := quote_failure_short_circuits provW "sofi" "monthly" rfl
  rw [h]
  have hu : pyUpper "sofi" = "SOFI" := by decide
  rw [hu]

/-- Claim C6: every result of `get_ticker_data` carries either the full data
set with no error or only the error next to the ticker, never a partial mix,
and its ticker is always the upper-cased input. -/
theorem screening_result_never_partial (prov : Provider) (t mode : String) :
    ((get_ticker_data prov t mode).1).ticker = pyUpper t
  ∧ ((((get_ticker_data prov t mode).1).error = none
        ∧ (((get_ticker_data prov t mode).1).price).isSome = true
        ∧ (((get_ticker_data prov t mode).1).implied_volatility).isSome = true
        ∧ (((get_ticker_data prov t mode).1).description).isSome = true
        ∧ (((get_ticker_data prov t mode).1).volume).isSome = true)
     ∨ ((((get_ticker_data prov t mode).1).error).isSome = true
        ∧ ((get_ticker_data prov t mode).1).price = none
        ∧ ((get_ticker_data prov t mode).1).implied_volatility = none
        ∧ ((get_ticker_data prov t mode).1).description = none
        ∧ ((get_ticker_data prov t mode).1).volume = none)) := by
  cases hq : prov.quote t <;> simp [get_ticker_data, hq]

/-- Claim C1 (code bug): on a chain holding a single put whose `mid_iv` 0.45
lies inside the sanity band, src/app.py still reports no IV (the ticker gets
"N/A"), although the claimed value is `round(mean([0.45]) * 100, 2) = 45`;
and src/app_tradier.py, which `src` also offers, applies no sanity band at
all: a lone `mid_iv` of 4.0 (400 percent) is averaged and reported as 400
instead of being discarded. -/
theorem app_iv_aggregation_unreachable :
    appChainStep [⟨some "put", some 7, some ⟨some (9/20)⟩⟩] 10 = none
  ∧ pyRound2 (9/20 * 100) = 45
  ∧ tradierChainStep [⟨some "put", some 7, some ⟨some 4⟩⟩] 10 = some 400 := by
  refine ⟨by decide, by norm_num [pyRound2, roundHalfEven], ?_⟩
  simp [tradierChainStep, tradierNearestPuts, tradierWithDistances,
    List.insertionSort, List.orderedInsert, List.filter, List.filterMap_cons, Option.bind,
    Greeks.mid_iv]
  norm_num [pyRound2, roundHalfEven]

/-- Claim C2 (code bug): the put-count check of src/app.py lines 157-161 is
inverted — a chain with one put makes the Selector return the unavailable
sentinel instead of proceeding (src/app_tradier.py, whose check is the
intended one, aggregates the same chain to 50.0), and a chain with no puts
falls through the check and still ends in the sentinel. -/
theorem put_filter_check_inverted :
    appChainStep [⟨some "put", some 7, some ⟨some (1/2)⟩⟩] 10 = none
  ∧ tradierChainStep [⟨some "put", some 7, some ⟨some (1/2)⟩⟩] 10 = some 50
  ∧ appChainStep [] 10 = none := by
  refine ⟨by decide, ?_, by decide⟩
  simp [tradierChainStep, tradierNearestPuts, tradierWithDistances,
    List.insertionSort, List.orderedInsert, List.filter, List.filterMap_cons, Option.bind,
    Greeks.mid_iv]
  norm_num [pyRound2, roundHalfEven]

/-- Claim C3: for every positive price the band is [0.60P, 0.80P] around the
0.70P midpoint — in-band strikes get plain distance to the midpoint (zero at
the midpoint itself), out-of-band strikes get the same distance plus 1000
(hence at least 1000) — and the selected cluster is the first 3 entries (or
fewer) of the distance-ascending stable sort of the tagged puts. -/
theorem strike_band_and_selection (P : ℚ) (hP : 0 < P) (puts : List OptionContract) :
    (∀ s : ℚ, P * (6/10) ≤ s → s ≤ P * (8/10) → bandDistance P s = |s - P * (7/10)|)
  ∧ (∀ s : ℚ, ¬ (P * (6/10) ≤ s ∧ s ≤ P * (8/10)) →
        bandDistance P s = |s - P * (7/10)| + 1000 ∧ 1000 ≤ bandDistance P s)
  ∧ bandDistance P (P * (7/10)) = 0
  ∧ nearestPuts P puts = (List.insertionSort distLe (withDistances P puts)).take 3
  ∧ List.Sorted distLe (nearestPuts P puts)
  ∧ (nearestPuts P puts).length = min 3 puts.length
  ∧ (List.insertionSort distLe (withDistances P puts)).Perm (withDistances P puts) := by
  have hlo : P * (6/10) ≤ P * (7/10) := by nlinarith
  have hhi : P * (7/10) ≤ P * (8/10) := by nlinarith
  refine ⟨?_, ?_, ?_, rfl, ?_, ?_, List.perm_insertionSort distLe _⟩
  · intro s h1 h2
    simp [bandDistance, h1, h2]
  · intro s h
    rw [bandDistance, if_neg h]
    exact ⟨rfl, by linarith [abs_nonneg (s - P * (7/10))]⟩
  · simp [bandDistance, hlo, hhi]
  · exact List.Pairwise.sublist (List.take_sublist 3 _) (List.sorted_insertionSort distLe _)
  · simp [nearestPuts, List.length_take, (List.perm_insertionSort distLe _).length_eq,
      withDistances]

/-- Witness for C3 at price 10 and a single put at strike 7. -/
theorem strike_band_and_selection_witness :
    (0:ℚ) < 10
  ∧ bandDistance 10 (10 * (7/10)) = 0
  ∧ (nearestPuts 10 [⟨some "put", some 7, none⟩]).length = 1 := by
  have h := strike_band_and_selection 10 (by norm_num) [⟨some "put", some 7, none⟩]
  exact ⟨by norm_num, h.2.2.1, by simpa using h.2.2.2.2.2.1⟩

/-- Claim C4: for a non-empty expiration list the selection never fails — the
first expiration inside the mode's inclusive window ([now+7, now+14] weekly,
[now+30, now+45] monthly) is chosen when one exists, and the head of the raw
list otherwise; the fixed window of src/app_tradier.py coincides with the
weekly case. -/
theorem expiration_window_selection (now : ℚ) (mode : String) (exps : List ℚ)
    (h : exps ≠ []) :
    (selectExpiration now mode exps).isSome = true
  ∧ (∀ d : ℚ, exps.find? (inWindow now mode) = some d →
        selectExpiration now mode exps = some d)
  ∧ (exps.find? (inWindow now mode) = none →
        selectExpiration now mode exps = exps.head?)
  ∧ (∀ e : ℚ, inWindow now "weekly" e = decide (now + 7 ≤ e ∧ e ≤ now + 14))
  ∧ (∀ e : ℚ, inWindow now "monthly" e = decide (now + 30 ≤ e ∧ e ≤ now + 45))
  ∧ (∀ l : List ℚ, tradierSelectExpiration now l = selectExpiration now "weekly" l) := by
  obtain ⟨e0, rest, rfl⟩ : ∃ e0 rest, exps = e0 :: rest := by
    cases exps with
    | nil => exact absurd rfl h
    | cons a t => exact ⟨a, t, rfl⟩
  refine ⟨?_, ?_, ?_, fun e => by simp [inWindow], fun e => by simp [inWindow], ?_⟩
  · cases hf : (e0 :: rest).filter (inWindow now mode) <;> simp [selectExpiration, hf]
  · intro d hd
    have hh := head?_filter (inWindow now mode) (e0 :: rest)
    rw [hd] at hh
    cases hf : (e0 :: rest).filter (inWindow now mode) with
    | nil => rw [hf] at hh; simp at hh
    | cons s0 t =>
      rw [hf] at hh
      simp only [List.head?_cons, Option.some.injEq] at hh
      simp [selectExpiration, hf, hh]
  · intro hn
    have hh := head?_filter (inWindow now mode) (e0 :: rest)
    rw [hn] at hh
    have hf : (e0 :: rest).filter (inWindow now mode) = [] := by
      cases hf : (e0 :: rest).filter (inWindow now mode) with
      | nil => rfl
      | cons s0 t => rw [hf] at hh; simp at hh
    simp [selectExpiration, hf]
  · intro l
    have hfun : (fun e : ℚ => decide (now + 7 ≤ e ∧ e ≤ now + 14)) = inWindow now "weekly" := by
      funext e
      simp [inWindow]
    cases l with
    | nil => rfl
    | cons a t =>
      simp only [tradierSelectExpiration, selectExpiration]
      rw [hfun]

/-- Witness for C4: a lone expiration 100 days out is outside the monthly
window, so the fallback picks it as the head of the raw list. -/
theorem expiration_window_selection_witness :
    selectExpiration 0 "monthly" [100] = some 100 ∧ ([100] : List ℚ) ≠ [] := by
  have h := expiration_window_selection 0 "monthly" [100] (by simp)
  have hfind : List.find? (inWindow 0 "monthly") [100] = none := by
    rw [List.find?_eq_none]
    intro x hx
    simp only [List.mem_singleton] at hx
    subst hx
    simp [inWindow]
    norm_num
  exact ⟨(h.2.2.1 hfind).trans rfl, by simp⟩

/-- Claim C7: the batch loop processes exactly the string entries, stripped,
in input order — non-string entries are silently dropped, so the output can
be shorter than the input — the success response reports `count` equal to the
output length, and each entry's outcome is an independent function of the
provider, so one ticker's failure cannot abort the others. -/
theorem batch_processes_string_entries (prov : Provider) (mode : String)
    (tickers : List JVal) :
    processTickers prov mode tickers =
      (tickers.filterMap isStrEntry).map (fun s => (get_ticker_data prov (pyStrip s) mode).1)
  ∧ (processTickers prov mode tickers).length = (tickers.filterMap isStrEntry).length
  ∧ (processTickers prov mode tickers).length ≤ tickers.length
  ∧ (tickers.length ≠ 0 →
      finishRequest prov mode tickers =
        (WheelResponse.ok mode (processTickers prov mode tickers).length
           (processTickers prov mode tickers),
         (processTickers prov mode tickers).length)) := by
  have he : processTickers prov mode tickers =
      (tickers.filterMap isStrEntry).map
        (fun s => (get_ticker_data prov (pyStrip s) mode).1) := by
    simpa using processTickers_foldl prov mode tickers []
  refine ⟨he, by simp [he], ?_, ?_⟩
  · rw [he]
    simp only [List.length_map]
    exact List.length_filterMap_le isStrEntry tickers
  · intro hne
    simp [finishRequest, hne]

/-- Witness for C7: a two-entry list with one string and one number yields a
single-record response with count 1. -/
theorem batch_processes_string_entries_witness :
    finishRequest provW "monthly" [JVal.jstr "a", JVal.jnum 1] =
      (WheelResponse.ok "monthly" 1
         [⟨"A", none, none, none, none, some "Unable to fetch quote data"⟩], 1) := by
  have h := batch_processes_string_entries provW "monthly" [JVal.jstr "a", JVal.jnum 1]
  rw [h.2.2.2 (by simp)]
  decide

/-- Claim C8 (amended): every structurally invalid request — a query or body
mode whose string value lower-cases to something other than weekly/monthly, a
missing or non-list `tickers` value in a POST body, or an empty tickers
list — is rejected with HTTP 400 before any per-ticker provider call; a POST
body whose `mode` value is not a string instead trips the catch-all handler
and yields HTTP 500, still before any provider call. -/
theorem validation_rejects_before_provider (prov : Provider) (req : HttpRequest) :
    (¬ (pyLower (req.argMode.getD "monthly") = "weekly"
          ∨ pyLower (req.argMode.getD "monthly") = "monthly") →
        wheel_screener prov req =
          (WheelResponse.badRequest "Invalid mode. Must be \"weekly\" or \"monthly\"", 0))
  ∧ ((pyLower (req.argMode.getD "monthly") = "weekly"
        ∨ pyLower (req.argMode.getD "monthly") = "monthly") →
      req.method = Method.post →
      (req.body = none ∨ ∃ b : PostBody, req.body = some b ∧ b.tickers = none) →
        wheel_screener prov req =
          (WheelResponse.badRequest "Request must include \"tickers\" list in JSON body", 0))
  ∧ (∀ b : PostBody, ∀ s : String,
      (pyLower (req.argMode.getD "monthly") = "weekly"
        ∨ pyLower (req.argMode.getD "monthly") = "monthly") →
      req.method = Method.post → req.body = some b → (b.tickers).isSome = true →
      b.mode = some (JVal.jstr s) →
      ¬ (pyLower s = "weekly" ∨ pyLower s = "monthly") →
        wheel_screener prov req =
          (WheelResponse.badRequest "Invalid mode. Must be \"weekly\" or \"monthly\"", 0))
  ∧ (∀ b : PostBody, ∀ tv : JVal,
      (pyLower (req.argMode.getD "monthly") = "weekly"
        ∨ pyLower (req.argMode.getD "monthly") = "monthly") →
      req.method = Method.post → req.body = some b → b.tickers = some tv →
      (b.mode = none ∨ ∃ s : String, b.mode = some (JVal.jstr s)
          ∧ (pyLower s = "weekly" ∨ pyLower s = "monthly")) →
      (∀ l : List JVal, tv ≠ JVal.jlist l) →
        wheel_screener prov req =
          (WheelResponse.badRequest "\"tickers\" must be a list", 0))
  ∧ (∀ b : PostBody,
      (pyLower (req.argMode.getD "monthly") = "weekly"
        ∨ pyLower (req.argMode.getD "monthly") = "monthly") →
      req.method = Method.post → req.body = some b →
      b.tickers = some (JVal.jlist []) →
      (b.mode = none ∨ ∃ s : String, b.mode = some (JVal.jstr s)
          ∧ (pyLower s = "weekly" ∨ pyLower s = "monthly")) →
        wheel_screener prov req =
          (WheelResponse.badRequest "Tickers list cannot be empty", 0))
  ∧ (∀ m : String, ∀ tickers : List JVal, tickers = [] →
        finishRequest prov m tickers =
          (WheelResponse.badRequest "Tickers list cannot be empty", 0))
  ∧ (∀ b : PostBody, ∀ v : JVal,
      (pyLower (req.argMode.getD "monthly") = "weekly"
        ∨ pyLower (req.argMode.getD "monthly") = "monthly") →
      req.method = Method.post → req.body = some b → (b.tickers).isSome = true →
      b.mode = some v → (∀ s : String, v ≠ JVal.jstr s) →
        wheel_screener prov req = (WheelResponse.serverError, 0)) := by
  refine ⟨?_, ?_, ?_, ?_, ?_, ?_, ?_⟩
  · intro him
    simp only [wheel_screener]
    rw [if_pos him]
  · intro hm hpost hb
    rcases hb with hb | ⟨b, hb, ht⟩ <;> rcases hm with hm | hm <;>
      simp [wheel_screener, hm, hpost, hb] <;> simp [ht]
  · intro b s hm hpost hb ht hbm hns
    obtain ⟨tv, htv⟩ := Option.isSome_iff_exists.mp ht
    rw [not_or] at hns
    obtain ⟨hn1, hn2⟩ := hns
    rcases hm with hm | hm <;>
      · simp [wheel_screener, hm, hpost, hb, htv, hbm]
        intro hc
        exact absurd (hc hn1) hn2
  · intro b tv hm hpost hb htv hbm hnl
    have hlc : listCheck prov (pyLower (req.argMode.getD "monthly")) tv =
        (WheelResponse.badRequest "\"tickers\" must be a list", 0) := by
      cases tv with
      | jlist l => exact absurd rfl (hnl l)
      | jstr s => rfl
      | jnum q => rfl
      | jnull => rfl
    have hlc2 : ∀ m : String, listCheck prov m tv =
        (WheelResponse.badRequest "\"tickers\" must be a list", 0) := by
      intro m
      cases tv with
      | jlist l => exact absurd rfl (hnl l)
      | jstr s => rfl
      | jnum q => rfl
      | jnull => rfl
    rcases hbm with hbm | ⟨s, hbm, hs⟩
    · rcases hm with hm | hm <;> simp [wheel_screener, hm, hpost, hb, htv, hbm, hlc2]
    · rcases hm with hm | hm <;>
        · simp [wheel_screener, hm, hpost, hb, htv, hbm, hlc2]
          exact fun hna => hs.resolve_left hna
  · intro b hm hpost hb htv hbm
    rcases hbm with hbm | ⟨s, hbm, hs⟩
    · rcases hm with hm | hm <;>
        simp [wheel_screener, hm, hpost, hb, htv, hbm, listCheck, finishRequest]
    · rcases hm with hm | hm <;>
        · simp [wheel_screener, hm, hpost, hb, htv, hbm, listCheck, finishRequest]
          exact fun hna => hs.resolve_left hna
  · intro m tickers h
    subst h
    simp [finishRequest]
  · intro b v hm hpost hb ht hbm hvs
    obtain ⟨tv, htv⟩ := Option.isSome_iff_exists.mp ht
    have hv : ∀ s : String, v = JVal.jstr s → False := fun s hc => absurd hc (hvs s)
    cases v with
    | jstr s => exact absurd rfl (hvs s)
    | jlist l => rcases hm with hm | hm <;> simp [wheel_screener, hm, hpost, hb, htv, hbm]
    | jnum q => rcases hm with hm | hm <;> simp [wheel_screener, hm, hpost, hb, htv, hbm]
    | jnull => rcases hm with hm | hm <;> simp [wheel_screener, hm, hpost, hb, htv, hbm]

/-- Witness for C8: a POST carrying a string `tickers` value instead of a
list is rejected with 400 and zero provider calls. -/
theorem validation_rejects_before_provider_witness :
    wheel_screener provW ⟨Method.post, none, none, some ⟨some (JVal.jstr "X"), none⟩⟩ =
      (WheelResponse.badRequest "\"tickers\" must be a list", 0) := by
  have h := validation_rejects_before_provider provW
      ⟨Method.post, none, none, some ⟨some (JVal.jstr "X"), none⟩⟩
  exact h.2.2.2.1 ⟨some (JVal.jstr "X"), none⟩ (JVal.jstr "X")
    (Or.inr (by decide)) rfl rfl rfl (Or.inl rfl) (fun l hc => JVal.noConfusion hc)

/-- Counterexample for C8 as stated: `badModeReq` supplies a mode that is not
weekly or monthly (the JSON number 3) in an otherwise valid body, yet the
handler answers HTTP 500 — `data["mode"].lower()` raises `AttributeError`
into the catch-all — not the claimed HTTP 400 (no provider call is made
either way). -/
theorem nonstring_mode_yields_500 :
    wheel_screener provW badModeReq = (WheelResponse.serverError, 0)
  ∧ ∀ msg : String,
      (wheel_screener provW badModeReq).1 ≠ WheelResponse.badRequest msg := by
  have hm : pyLower "monthly" = "monthly" := by decide
  have h : wheel_screener provW badModeReq = (WheelResponse.serverError, 0) := by
    simp [wheel_screener, badModeReq, hm]
  refine ⟨h, fun msg => ?_⟩
  rw [h]
  exact fun hc => WheelResponse.noConfusion hc

/-- Claim C9: on a POST whose body omits `mode`, the mode that is used and
validated is the lower-cased `mode` query parameter (default "monthly" when
absent): a valid query mode reaches processing under that mode and shows up
in the success payload, an invalid one is rejected with 400 even though the
body itself is valid. -/
theorem post_mode_falls_back_to_query (prov : Provider) (qm ats : Option String)
    (l : List JVal) :
    ((pyLower (qm.getD "monthly") = "weekly" ∨ pyLower (qm.getD "monthly") = "monthly") →
      wheel_screener prov ⟨Method.post, qm, ats, some ⟨some (JVal.jlist l), none⟩⟩ =
        finishRequest prov (pyLower (qm.getD "monthly")) l)
  ∧ (¬ (pyLower (qm.getD "monthly") = "weekly" ∨ pyLower (qm.getD "monthly") = "monthly") →
      wheel_screener prov ⟨Method.post, qm, ats, some ⟨some (JVal.jlist l), none⟩⟩ =
        (WheelResponse.badRequest "Invalid mode. Must be \"weekly\" or \"monthly\"", 0))
  ∧ (l ≠ [] →
      (pyLower (qm.getD "monthly") = "weekly" ∨ pyLower (qm.getD "monthly") = "monthly") →
      wheel_screener prov ⟨Method.post, qm, ats, some ⟨some (JVal.jlist l), none⟩⟩ =
        (WheelResponse.ok (pyLower (qm.getD "monthly"))
           (processTickers prov (pyLower (qm.getD "monthly")) l).length
           (processTickers prov (pyLower (qm.getD "monthly")) l),
         (processTickers prov (pyLower (qm.getD "monthly")) l).length)) := by
  refine ⟨?_, ?_, ?_⟩
  · intro hm
    rcases hm with hm | hm <;> simp [wheel_screener, hm, listCheck]
  · intro hm
    simp only [wheel_screener]
    rw [if_pos hm]
  · intro hl hm
    have hlen : l.length ≠ 0 := fun h0 => hl (List.length_eq_zero.mp h0)
    rcases hm with hm | hm <;>
      simp [wheel_screener, hm, listCheck, finishRequest, hlen]

/-- Witness for C9: `?mode=weekly` with a body that has tickers but no mode
runs in weekly mode and reports count 1. -/
theorem post_mode_falls_back_to_query_witness :
    wheel_screener provW ⟨Method.post, some "weekly", none,
        some ⟨some (JVal.jlist [JVal.jstr "SOFI"]), none⟩⟩ =
      (WheelResponse.ok "weekly" 1
         [⟨"SOFI", none, none, none, none, some "Unable to fetch quote data"⟩], 1) := by
  have h := post_mode_falls_back_to_query provW (some "weekly") none [JVal.jstr "SOFI"]
  have h2 := h.2.2 (List.cons_ne_nil _ _) (Or.inl (by decide))
  rw [h2]
  decide
